import Mathlib

/-!
# Verification of the McMini model-checker sources

Shallow embedding of the parts of the repository exercised by the
specification claims, together with theorems settling each claim.

Conventions:
* C machine integers are modelled as `Nat` with explicit `% 2 ^ 64`
  where 64-bit overflow can occur.
* C functions that can loop forever are modelled with an explicit fuel
  bound of one full cycle through the table; a `none` result models
  nontermination of the C loop.
* Null pointers and sentinel values (`UINT64_MAX`, `invalid_objid`) are
  modelled with `Option`.
-/

/-! ## src/src/hashtable.c -/

/-- One slot of the open-addressing table (C `hash_table_entry`).
`none` models an entry with `valid == false`; in every state the C code
can construct, an invalid entry carries a `NULL` value (the code only
writes `hash_table_invalid_entry` or `bzero`ed memory into invalid
slots), so no information is lost by the `Option` representation.
A valid entry is `some (key, value)`. -/
abbrev hash_table_entry := Option (Nat × Nat)

/-- C `struct hash_table`.  `slots` models the `base` array together
with `len` (`len / sizeof(hash_table_entry) = slots.length`); a `NULL`
`base` is the empty list.  `count` is the stored occupancy counter,
which the C code maintains separately from the actual array contents. -/
structure hash_table where
  count : Nat
  slots : List hash_table_entry
deriving DecidableEq

def U64 : Nat := 2 ^ 64

/-- C `hash_key` (all arithmetic on `uint64_t`). -/
def hash_key (key : Nat) : Nat :=
  let k1 := (((key >>> 16) ^^^ key) * 0x45d9f3b) % U64
  let k2 := (((k1 >>> 16) ^^^ k1) * 0x45d9f3b) % U64
  (k2 >>> 16) ^^^ k2

/-- C `hash_table_num_slots` (for a non-`NULL` table). -/
def hash_table_num_slots (t : hash_table) : Nat := t.slots.length

/-- C `hash_table_map_key`: home index of a key. -/
def hash_table_map_key (t : hash_table) (key : Nat) : Nat :=
  hash_key key % hash_table_num_slots t

/-- Reading slot `i` of the array (`ref->base[i]`; out-of-range reads
do not occur on the paths the C code takes, and default to an invalid
entry). -/
def slot_at (slots : List hash_table_entry) (i : Nat) : hash_table_entry :=
  slots.getD i none

/-- Result of the linear-probe loop shared by `hash_table_probe_get`
and `hash_table_probe_set`:
`found i` — slot `i` is valid and holds `key`;
`empty i` — slot `i` is the first invalid slot on the probe path;
`hang` — the C `while` loop never terminates (every slot probed within
one full cycle is valid and holds a different key). -/
inductive probe_result where
  | found : Nat → probe_result
  | empty : Nat → probe_result
  | hang : probe_result
deriving DecidableEq

/-- The C probe loop `while ((cur = ref->base[best_match]).valid) ...`,
with fuel: one full cycle of the table visits every slot, so if no
terminating slot is met within `slots.length` steps the C loop runs
forever. -/
def probe_loop (slots : List hash_table_entry) (key : Nat) :
    Nat → Nat → probe_result
  | _, 0 => .hang
  | idx, fuel + 1 =>
    match slot_at slots idx with
    | none => .empty idx
    | some kv =>
      if kv.1 = key then .found idx
      else probe_loop slots key ((idx + 1) % slots.length) fuel

/-- C `hash_table_probe_get`.  Outer `none` models nontermination;
`some none` models the `UINT64_MAX` (not found) return; `some (some i)`
an index return.  With `count == 0` the C code returns the home index
without looking at the slot. -/
def hash_table_probe_get (t : hash_table) (key : Nat) : Option (Option Nat) :=
  let best := hash_table_map_key t key
  if t.count = 0 then some (some best)
  else
    match probe_loop t.slots key best t.slots.length with
    | .found i => some (some i)
    | .empty _ => some none
    | .hang => none

/-- C `hash_table_get` (for a non-`NULL` `ref`).  Outer `none` models
nontermination; `some none` models a `NULL` return. -/
def hash_table_get (t : hash_table) (key : Nat) : Option (Option Nat) :=
  if t.slots.length = 0 then some none
  else
    match hash_table_probe_get t key with
    | none => none
    | some none => some none
    | some (some i) => some ((slot_at t.slots i).map Prod.snd)

/-- C `hash_table_probe_set`.  Returns the destination index and the
`replace` flag; with `count == 0` the C code returns the home index and
leaves `*replace` at the caller's initial `false`. -/
def hash_table_probe_set (t : hash_table) (key : Nat) : Option (Nat × Bool) :=
  let best := hash_table_map_key t key
  if t.count = 0 then some (best, false)
  else
    match probe_loop t.slots key best t.slots.length with
    | .found i => some (i, true)
    | .empty i => some (i, false)
    | .hang => none

/-- C `hash_table_rehash`: every valid entry of the old array is copied
to its home slot in the new array, with no collision probing — a later
entry silently overwrites an earlier one that hashes to the same home
slot. -/
def hash_table_rehash (old acc : List hash_table_entry) : List hash_table_entry :=
  old.foldl
    (fun acc e =>
      match e with
      | none => acc
      | some kv => acc.set (hash_key kv.1 % acc.length) (some kv))
    acc

/-- C `hash_table_unforced_grow`, with the load factor `REHASH_FACTOR`
(defined in `hashtable.h`, which is not part of the sources) kept as an
explicit rational parameter `n / d`: the C test
`count * sizeof(entry) >= len * REHASH_FACTOR` becomes
`d * count ≥ n * slots.length`. -/
def hash_table_unforced_grow (n d : Nat) (t : hash_table) : hash_table :=
  let t0 := if t.slots.length = 0 then { t with slots := [none] } else t
  if n * t0.slots.length ≤ d * t0.count then
    { t0 with slots := hash_table_rehash t0.slots (List.replicate (2 * t0.slots.length) none) }
  else t0

/-- C `hash_table_set` (for a non-`NULL` `ref`): grow if needed, probe,
write the entry, and bump `count` unless an entry was replaced.  The
increment is `size_t` arithmetic, so — like the decrement in
`hash_table_remove` — it wraps at `2 ^ 64`.  `none` models
nontermination of the probe loop. -/
def hash_table_set (n d : Nat) (t : hash_table) (key value : Nat) : Option hash_table :=
  let t1 := hash_table_unforced_grow n d t
  match hash_table_probe_set t1 key with
  | none => none
  | some (dest, replace) =>
    some { count := if replace then t1.count else (t1.count + 1) % U64,
           slots := t1.slots.set dest (some (key, value)) }

/-- C `hash_table_create`. -/
def hash_table_create : hash_table := { count := 0, slots := [] }

/-- C `hash_table_remove` (for a non-`NULL` `ref` with non-`NULL`
`base`; with a `NULL` base the C code returns without changing the
table).  The slot at the key's home index is invalidated
unconditionally and `count` is decremented (`size_t` arithmetic, so it
wraps at zero). -/
def hash_table_remove (t : hash_table) (key : Nat) : hash_table :=
  if t.slots.length = 0 then t
  else { count := (t.count + (U64 - 1)) % U64,
         slots := t.slots.set (hash_table_map_key t key) none }

/-- Whether some valid entry of the array holds `key`. -/
def hash_table_has_key (slots : List hash_table_entry) (key : Nat) : Bool :=
  slots.any (fun e => match e with | some kv => kv.1 = key | none => false)


/-! ## src/src/thread.c -/

/-- C `struct thread` as used by `thread.c` (the functions there read
and write an `is_alive` flag and the listed fields).  `pthread_t`
handles and the opaque `start_routine` / `arg` pointers are modelled as
numbers (`none` for `NULL`). -/
structure cthread where
  is_alive : Bool
  start_routine : Option Nat
  arg : Option Nat
  owner : Nat
deriving DecidableEq

/-- C `thread_operation_type` (from `thread.h`). -/
inductive thread_operation_type where
  | THREAD_START
  | THREAD_CREATE
  | THREAD_JOIN
  | THREAD_FINISH
  | THREAD_TERMINATE_PROCESS
deriving DecidableEq

/-- C `struct thread_operation`: an operation type plus the thread it
targets (an embedded struct, hence never `NULL`). -/
structure thread_operation where
  type : thread_operation_type
  thread : cthread
deriving DecidableEq

/-- C `thread_operation_enabled` from `thread.c`.  Null `top` or
`thread` arguments are modelled as `none`. -/
def thread_operation_enabled :
    Option thread_operation → Option cthread → Bool
  | none, _ => false
  | some _, none => false
  | some top, some _ =>
    match top.type with
    | .THREAD_JOIN => !top.thread.is_alive
    | .THREAD_FINISH => false
    | _ => true

/-! ## src/src/transitions/cond/MCCondEnqueue.cpp

The transition classes of the original (pre-rewrite) checker.  Only
`MCCondEnqueue.cpp` is among the sources; the mutex transition classes,
`MCTransitionFactory::transitionsDependentCommon` /
`transitionsCoenabledCommon` and the engine's double dispatch are not,
and are modelled from the spec below. -/

/-- A transition of the original checker, restricted to the variants
the sources and the spec table speak about.  A `condEnqueue` records
its executor, the condition variable, the mutex passed to
`pthread_cond_wait`, and the mutex currently associated with the
condition variable (`conditionVariable->mutex` in the C++ sources,
which is `NULL`, modelled `none`, until the first enqueue is applied). -/
inductive MCTransition where
  | mutexInit (tid m : Nat)
  | mutexLock (tid m : Nat)
  | mutexUnlock (tid m : Nat)
  | condEnqueue (tid c m : Nat) (assoc : Option Nat)
deriving DecidableEq

namespace MCTransition

/-- The mutex id referenced by a mutex transition (`none` for the
cond-enqueue variant and for a constructed unlock of a `NULL` mutex). -/
inductive mutex_op_kind where
  | init | lock | unlock
deriving DecidableEq

/-- The descriptor of a mutex operation: its kind together with the
(possibly `NULL`) mutex object it references. -/
abbrev mutex_op := mutex_op_kind × Option Nat

/-- View of a transition as a mutex operation, when it is one
(the `dynamic_pointer_cast<MCMutexTransition>` test). -/
def as_mutex_op : MCTransition → Option mutex_op
  | mutexInit _ m => some (.init, some m)
  | mutexLock _ m => some (.lock, some m)
  | mutexUnlock _ m => some (.unlock, some m)
  | condEnqueue _ _ _ _ => none

/-- Modelled from the spec: `MCTransitionFactory::transitionsDependentCommon`
is not among the sources.  Per spec §4.A, dependency is registered by
unordered pairs of variants, the registered mutex pairs being
lock/lock, lock/unlock and lock/init on the same mutex; unregistered
pairs (and transitions with disjoint object ids) default to
independent. -/
def transitionsDependentCommon (a b : mutex_op) : Bool :=
  match a.2, b.2 with
  | some m1, some m2 =>
    m1 = m2 &&
    (match a.1, b.1 with
     | .lock, .lock => true
     | .lock, .unlock => true
     | .unlock, .lock => true
     | .lock, .init => true
     | .init, .lock => true
     | _, _ => false)
  | _, _ => false

/-- Modelled from the spec: `MCTransitionFactory::transitionsCoenabledCommon`
is not among the sources.  Per spec §4.A, the registered mutex pairs
that are not co-enabled are lock/lock and lock/init on the same mutex;
every other pair defaults to co-enabled. -/
def transitionsCoenabledCommon (a b : mutex_op) : Bool :=
  match a.2, b.2 with
  | some m1, some m2 =>
    !(m1 = m2 &&
      (match a.1, b.1 with
       | .lock, .lock => true
       | .lock, .init => true
       | .init, .lock => true
       | _, _ => false))
  | _, _ => true

/-- `MCCondEnqueue::coenabledWith` (from `MCCondEnqueue.cpp`): another
cond-enqueue is co-enabled iff it is on a different condition variable;
against a mutex operation the method builds `MCMutexUnlock(thread,
conditionVariable->mutex)` and defers to `transitionsCoenabledCommon`;
anything else is co-enabled. -/
def condEnqueue_coenabledWith (c : Nat) (assoc : Option Nat)
    (other : MCTransition) : Bool :=
  match other with
  | condEnqueue _ c2 _ _ => c2 != c
  | t =>
    match t.as_mutex_op with
    | some op => transitionsCoenabledCommon (.unlock, assoc) op
    | none => true

/-- `MCCondEnqueue::dependentWith` (from `MCCondEnqueue.cpp`): another
cond transition is dependent iff it is on the same condition variable;
against a mutex operation the method builds `MCMutexUnlock(thread,
conditionVariable->mutex)` and — as written in the source — defers to
`transitionsCoenabledCommon` (not the dependent counterpart); anything
else is independent. -/
def condEnqueue_dependentWith (c : Nat) (assoc : Option Nat)
    (other : MCTransition) : Bool :=
  match other with
  | condEnqueue _ c2 _ _ => c2 == c
  | t =>
    match t.as_mutex_op with
    | some op => transitionsCoenabledCommon (.unlock, assoc) op
    | none => false

/-- Modelled from the spec: the engine's dispatch of the dependency
relation is not among the sources.  Per spec §4.A the relation is
registered by unordered pairs of variants, so a pair containing a
cond-enqueue is answered by the cond-enqueue handler above regardless
of argument order, and a pair of mutex operations by the common
routine. -/
def depends : MCTransition → MCTransition → Bool
  | condEnqueue _ c _ assoc, b => condEnqueue_dependentWith c assoc b
  | a, condEnqueue _ c _ assoc => condEnqueue_dependentWith c assoc a
  | a, b =>
    match a.as_mutex_op, b.as_mutex_op with
    | some x, some y => transitionsDependentCommon x y
    | _, _ => false

/-- Modelled from the spec: the engine's dispatch of the co-enabledness
relation, symmetric to `depends`. -/
def coenabled : MCTransition → MCTransition → Bool
  | condEnqueue _ c _ assoc, b => condEnqueue_coenabledWith c assoc b
  | a, condEnqueue _ c _ assoc => condEnqueue_coenabledWith c assoc a
  | a, b =>
    match a.as_mutex_op, b.as_mutex_op with
    | some x, some y => transitionsCoenabledCommon x y
    | _, _ => true

end MCTransition

/-! ## docs/design: model, coordinator and address map

The design-rewrite sources under `docs/design/` and `dmtcp/` contain
`coordinator.cpp`, `model_to_system_map.hpp`, `remote_address.hpp` and
the two `mcmini.cpp` drivers; the model classes (`detached_state`,
`pending_transitions`, `program`, the transition structs) are not among
the sources and are modelled from the spec where needed. -/

/-- A transition of the design-rewrite model (`model::transition`
subclasses registered in `mcmini.cpp`): executor runner id plus the
object ids it operates on. -/
inductive model_transition where
  | mutex_init (p m : Nat)
  | mutex_lock (p m : Nat)
  | mutex_unlock (p m : Nat)
  | thread_create (p target : Nat)
  | thread_start (p : Nat)
  | thread_exit (p : Nat)
  | thread_join (p target : Nat)
deriving DecidableEq

/-- The runner that executes a transition (`get_executor`). -/
def model_transition.executor : model_transition → Nat
  | .mutex_init p _ => p
  | .mutex_lock p _ => p
  | .mutex_unlock p _ => p
  | .thread_create p _ => p
  | .thread_start p => p
  | .thread_exit p => p
  | .thread_join p _ => p

/-- Modelled from the spec: the visible-object state variants of §3
(`model::visible_object_state` subclasses are not among the sources). -/
inductive visible_object_state where
  | thread_embryo
  | thread_running
  | thread_sleeping (objid : Nat)
  | thread_exited
  | mutex_uninitialized
  | mutex_unlocked
  | mutex_locked_by (runner : Nat)
deriving DecidableEq

/-- Whether a visible-object state is a runner (thread) state. -/
def visible_object_state.is_thread : visible_object_state → Bool
  | .thread_embryo | .thread_running | .thread_sleeping _ | .thread_exited => true
  | _ => false

/-- Modelled from the spec: `model::detached_state` is not among the
sources.  Per spec §3 it holds the object-id-indexed table of visible
objects and the dense runner-id-indexed list of runners (each runner is
itself a visible object, so `runners` maps runner ids to object ids);
ids are assigned densely in order of first observation. -/
structure detached_state where
  objects : List visible_object_state
  runners : List Nat
deriving DecidableEq

def detached_state.empty : detached_state := { objects := [], runners := [] }

/-- Modelled from the spec: `detached_state::add_runner` (spec §4.C
`add-runner(initial-state) → runner-id`) appends the runner's object and
returns the fresh dense runner id. -/
def detached_state.add_runner (s : detached_state)
    (st : visible_object_state) : detached_state × Nat :=
  ({ objects := s.objects ++ [st], runners := s.runners ++ [s.objects.length] },
   s.runners.length)

/-- The number of visible objects that are not runners. -/
def detached_state.non_runner_object_count (s : detached_state) : Nat :=
  s.objects.length - s.runners.length

/-- Modelled from the spec: `model::pending_transitions` is not among
the sources.  Per spec §3 it maps each live runner to the single
transition it wants to execute next; `set_transition` keys the entry by
the transition's executor. -/
def pending_transitions := List (Nat × model_transition)

instance : DecidableEq pending_transitions := by
  unfold pending_transitions
  infer_instance

/-- Modelled from the spec: `pending_transitions::set_transition`
replaces the executor's single pending entry (spec §4.C
`set-pending`). -/
def pending_transitions.set_transition (ps : pending_transitions)
    (t : model_transition) : pending_transitions :=
  (t.executor, t) :: ps.filter (fun e => e.1 ≠ t.executor)

/-- Modelled from the spec: `model::program` aggregates the state and
the pending next-step per runner (spec §3). -/
structure program where
  state : detached_state
  pending : pending_transitions
deriving DecidableEq

/-- The initial program model built by `do_model_checking` in
`dmtcp/src/mcmini/mcmini.cpp` (and identically in
`docs/design/src/mcmini/mcmini.cpp`): a fresh `detached_state`, one
runner added with state `running`, and that runner's
`thread_start` installed as its pending transition. -/
def do_model_checking_initial_program : program :=
  let state_of_program_at_main := detached_state.empty
  let r := state_of_program_at_main.add_runner .thread_running
  let main_thread_id := r.2
  let initial_first_steps :=
    pending_transitions.set_transition [] (.thread_start main_thread_id)
  { state := r.1, pending := initial_first_steps }

/-! ### The coordinator and the address map (docs/design) -/

/-- The coordinator's `system_address_mapping`: an association list
from remote addresses (opaque pointer values, modelled as `Nat`) to
model object ids. -/
def address_map := List (Nat × Nat)

instance : DecidableEq address_map := by
  unfold address_map
  infer_instance

/-- `model_to_system_map::get_object_for_remote_process_handle` from
`coordinator.cpp`: the mapped object id if the handle is present,
otherwise `model::invalid_objid` (modelled as `none`). -/
def get_object_for_remote_process_handle (m : address_map) (handle : Nat) :
    Option Nat :=
  match m.find? (fun e => e.1 = handle) with
  | some e => some e.2
  | none => none

set_option linter.unusedVariables false in
/-- `model_to_system_map::observe_remote_process_handle` from
`coordinator.cpp`, exactly as written: if the handle is already mapped
the existing id is returned; otherwise the function hits the
`TODO: Inform the coordinator of the new object` stub and returns
`model::invalid_objid` without touching the mapping.  The result is
the returned id paired with the (unchanged) mapping. -/
def observe_remote_process_handle (m : address_map) (handle : Nat)
    (fallback_initial_state : visible_object_state) : Option Nat × address_map :=
  match get_object_for_remote_process_handle m handle with
  | some existing_obj => (some existing_obj, m)
  | none => (none, m)

/-- `model_to_system_map::get_model_of` /  `contains` (header
`model_to_system_map.hpp`): membership is `get_model_of ≠ invalid`. -/
def model_to_system_map.contains (m : address_map) (addr : Nat) : Bool :=
  (get_object_for_remote_process_handle m addr).isSome

/-! ### The runtime-transition callbacks (docs/design/src/mcmini/mcmini.cpp) -/

/-- `mutex_lock_callback`: the mailbox payload is the remote mutex
address; an unmapped address is undefined behavior, otherwise a
`mutex_lock` transition on the mapped object is produced.  The
callback's (unchanged) view of the address map is returned alongside,
to record that it registers nothing. -/
def mutex_lock_callback (p : Nat) (remote_mut : Nat) (m : address_map) :
    Except String (model_transition × address_map) :=
  if !(model_to_system_map.contains m remote_mut) then
    .error "Attempting to lock an uninitialized mutex"
  else
    .ok (.mutex_lock p ((get_object_for_remote_process_handle m remote_mut).getD 0), m)

/-- `mutex_unlock_callback`: identical shape to the lock callback —
including, as written in the source, the error message that speaks of
locking — and it registers nothing either. -/
def mutex_unlock_callback (p : Nat) (remote_mut : Nat) (m : address_map) :
    Except String (model_transition × address_map) :=
  if !(model_to_system_map.contains m remote_mut) then
    .error "Attempting to lock an uninitialized mutex"
  else
    .ok (.mutex_unlock p ((get_object_for_remote_process_handle m remote_mut).getD 0), m)

/-! ### coordinator::execute_runner (docs/design coordinator.cpp) -/

/-- A runner mailbox (`runner_mailbox`): the first word of `cnts` is
the runtime type id of the posted transition, the rest is payload. -/
structure runner_mailbox where
  tag : Nat
  payload : List Nat
deriving DecidableEq

/-- A registered callback of the `transition_registry`: it parses a
mailbox (given the address map) into a model transition, or returns
null (`none`). -/
def transition_discovery_callback :=
  runner_mailbox → address_map → Option model_transition

/-- The coordinator state visible to `execute_runner`: whether
`current_process_handle` is non-null, the registry, and the address
map.  (The program model itself is untouched unless the call reaches
`model_executing_runner`.) -/
structure coordinator_state where
  alive : Bool
  registry : Nat → Option transition_discovery_callback
  mapping : address_map

/-- Outcome of `coordinator::execute_runner`: either an
`execution_exception` is thrown, or the constructed pending operation
is handed to `current_program_model.model_executing_runner`. -/
inductive execute_runner_result where
  | execError (msg : String)
  | handed (runner_id : Nat) (pending_operation : model_transition)

/-- `coordinator::execute_runner` from `coordinator.cpp`.  The mailbox
returned by the child's `execute_runner` is an input.  The function
throws when the process handle is null, when the posted runtime type
id has no registered callback, and when the callback fails to
translate the mailbox; otherwise it hands the constructed transition
to `model_executing_runner`. -/
def coordinator.execute_runner (co : coordinator_state) (runner_id : Nat)
    (mb : runner_mailbox) : execute_runner_result :=
  if !co.alive then
    .execError ("Failed to execute runner with id " ++ toString runner_id ++
      ": the process is not alive")
  else
    match co.registry mb.tag with
    | none =>
      .execError ("Execution resulted in a runner scheduled to execute the transition type with the RTTID " ++
        toString mb.tag ++
        " but this identifier has not been registered before model checking began.")
    | some callback_function =>
      match callback_function mb co.mapping with
      | none =>
        .execError ("Failed to translate the data written into the mailbox of runner " ++
          toString runner_id)
      | some pending_operation => .handed runner_id pending_operation

/-! ## dmtcp/src/mcmini/mcmini.cpp: main_cpp (CLI) -/

/-- `model::config` as populated by `main_cpp` (fields read from the
option loop; `0` for `max_thread_execution_depth` stands for the
"unbounded" default). -/
structure mcmini_config where
  max_thread_execution_depth : Nat := 0
  checkpoint_period : Nat := 0
  record_target_executable_only : Bool := false
  stop_at_first_deadlock : Bool := false
  target_trace_id : Nat := 0
  target_executable : String := ""
deriving DecidableEq

/-- Outcome of `main_cpp`: `exit code diag` models `exit(code)` after
printing `diag`; `run cfg` models falling through to
`do_model_checking` / `do_recording` with the parsed configuration. -/
inductive cli_outcome where
  | exit (code : Nat) (diag : String)
  | run (cfg : mcmini_config)
deriving DecidableEq

/-- Character `i` of a C string: within bounds the character, past the
end the NUL terminator. -/
def c_char_at (s : String) (i : Nat) : Char :=
  s.toList.getD i (Char.ofNat 0)

/-- C `isdigit`. -/
def c_isdigit (c : Char) : Bool := decide ('0' ≤ c ∧ c ≤ '9')

/-- The numeric value `strtoul` / `strtol` computes for a plain string
of decimal digits (the only numerals the embedding models; `strtol`'s
leading whitespace and sign handling is not exercised by the claims). -/
def c_decimal_value (s : String) : Nat :=
  s.toList.foldl (fun a c => a * 10 + (c.toNat - 48)) 0

/-- The `main_cpp` legality test on an option value: illegal iff
`strtol(arg, &endptr, 10) == 0 || endptr[0] != '\x00'`.  A missing
value (`NULL` in C, modelled as the empty string) is illegal. -/
def c_legal_number (s : String) : Bool :=
  s ≠ "" && s.toList.all c_isdigit && c_decimal_value s ≠ 0

def mcmini_usage_diag : String :=
  "Usage: mcmini (experimental)\n              [--record|-r <seconds>] \n              [--max-depth-per-thread|-m <num>]\n              [--first-deadlock|--first|-f]\n              [--help|-h]\n              target_executable\n"

def mcmini_missing_target_diag : String :=
  "*** Missing target_executable or no such file.\n\n"

/-- The checks following the option loop in `main_cpp`: a missing
(`NULL`) or non-`stat`-able target exits 1, as does invoking mcmini on
itself; otherwise the configuration is completed with the target and
execution proceeds.  `file_exists` models `stat(path, &buf) != -1`. -/
def main_cpp_handle_target (file_exists : String → Bool)
    (args : List String) (cfg : mcmini_config) : cli_outcome :=
  match args with
  | [] => .exit 1 mcmini_missing_target_diag
  | t :: _ =>
    if !file_exists t then .exit 1 mcmini_missing_target_diag
    else if t = "mcmini" || (7 ≤ t.length && t.drop (t.length - 7) = "/mcmini") then
      .exit 1 "\n*** McMini being called on mcmini.  This does not work.\n"
    else .run { cfg with target_executable := t }

/-- The option loop of `main_cpp` (`while (cur_arg[0] != NULL &&
cur_arg[0][0] == '-')`), one branch per `if`/`else if` of the source,
in source order.  Branches that read a value argument advance by two
(`cur_arg += 2`), the abbreviated `-mN` / `-pN` forms and the flag
forms advance by one. -/
def main_cpp_parse_args (file_exists : String → Bool) :
    List String → mcmini_config → cli_outcome
  | [], cfg => main_cpp_handle_target file_exists [] cfg
  | a :: rest, cfg =>
    if c_char_at a 0 ≠ '-' then main_cpp_handle_target file_exists (a :: rest) cfg
    else if a = "--max-depth-per-thread" ∨ a = "-m" then
      let v := rest.headD ""
      if !c_legal_number v then .exit 1 "--max-depth-per-thread: illegal value\n"
      else
        match rest with
        | [] => .exit 1 "--max-depth-per-thread: illegal value\n"
        | _ :: rest2 =>
          main_cpp_parse_args file_exists rest2
            { cfg with max_thread_execution_depth := c_decimal_value v }
    else if a = "--record" ∨ a = "-r" then
      match rest with
      | [] =>
        -- `cur_arg[1]` is NULL here and `strtoul` faults in C; the
        -- embedding reads the period as 0 and continues past the end.
        main_cpp_handle_target file_exists []
          { cfg with record_target_executable_only := true }
      | v :: rest2 =>
        main_cpp_parse_args file_exists rest2
          { cfg with record_target_executable_only := true,
                     checkpoint_period := c_decimal_value v }
    else if c_char_at a 1 = 'm' ∧ c_isdigit (c_char_at a 2) = true then
      main_cpp_parse_args file_exists rest
        { cfg with max_thread_execution_depth := c_decimal_value (rest.headD "") }
    else if a = "--first-deadlock" ∨ a = "--first" ∨ a = "-f" then
      main_cpp_parse_args file_exists rest
        { cfg with stop_at_first_deadlock := true }
    else if a = "--print-at-traceId" ∨ a = "-p" then
      let v := rest.headD ""
      if !c_legal_number v then .exit 1 "--print-at-traceId: illegal value\n"
      else
        match rest with
        | [] => .exit 1 "--print-at-traceId: illegal value\n"
        | _ :: rest2 =>
          main_cpp_parse_args file_exists rest2
            { cfg with target_trace_id := c_decimal_value v }
    else if c_char_at a 1 = 'p' ∧ c_isdigit (c_char_at a 2) = true then
      main_cpp_parse_args file_exists rest
        { cfg with target_trace_id := c_decimal_value (rest.getD 1 "") }
    else if a = "--help" ∨ a = "-h" then .exit 1 mcmini_usage_diag
    else .exit 1 ("mcmini: unrecognized option: " ++ a ++ "\n")

/-- `main_cpp` from `dmtcp/src/mcmini/mcmini.cpp`, on the argument
vector after the program name.  With no arguments at all (`argc == 1`)
the source rewrites the argument vector to `--help` before entering
the option loop. -/
def main_cpp (file_exists : String → Bool) (args : List String) : cli_outcome :=
  let args := if args = [] then ["--help"] else args
  main_cpp_parse_args file_exists args {}

/-- The condition under which the option loop of `main_cpp` treats an
argument as an unrecognized option: it begins with a dash and matches
none of the recognized forms. -/
def mcmini_unrecognized_option (a : String) : Prop :=
  c_char_at a 0 = '-' ∧
  a ≠ "--max-depth-per-thread" ∧ a ≠ "-m" ∧
  a ≠ "--record" ∧ a ≠ "-r" ∧
  ¬(c_char_at a 1 = 'm' ∧ c_isdigit (c_char_at a 2) = true) ∧
  a ≠ "--first-deadlock" ∧ a ≠ "--first" ∧ a ≠ "-f" ∧
  a ≠ "--print-at-traceId" ∧ a ≠ "-p" ∧
  ¬(c_char_at a 1 = 'p' ∧ c_isdigit (c_char_at a 2) = true) ∧
  a ≠ "--help" ∧ a ≠ "-h"

instance (a : String) : Decidable (mcmini_unrecognized_option a) := by
  unfold mcmini_unrecognized_option
  infer_instance

/-! ## Concrete scenario tables used by the hash-table claims -/

/-- The table after `set(0, 10)` on a fresh table (load factor 3/4).
Keys `0` and `2` collide: `hash_key 0` and `hash_key 2` are congruent
modulo 2 and modulo 4. -/
def collision_tableA : hash_table := { count := 1, slots := [some (0, 10)] }

/-- The table after `set(0, 10); set(2, 20)`: key `2` was displaced by
linear probing to slot `1`, its home slot `0` holding key `0`. -/
def collision_tableB : hash_table :=
  { count := 2, slots := [some (0, 10), some (2, 20)] }

/-- The table `hash_table_remove` produces from `collision_tableB` when
asked to remove key `2`: the home slot — holding key `0`'s entry — was
invalidated instead. -/
def collision_tableR : hash_table :=
  { count := 1, slots := [none, some (2, 20)] }

/-- The table after `set(0, 10); set(2, 20); set(0, 30)`: the growth to
four slots rehashed both entries onto home slot `0`, key `2` silently
overwriting key `0`, so the final probe re-inserted key `0` as a new
entry and bumped `count` to `3`. -/
def collision_tableC : hash_table :=
  { count := 3, slots := [some (2, 20), some (0, 30), none, none] }

/-- A four-slot table holding keys `2` and `0` (key `0` displaced to
slot `1`), sparse enough that a further `set` triggers no growth. -/
def nogrow_table : hash_table :=
  { count := 2, slots := [some (2, 20), some (0, 10), none, none] }

/-- `nogrow_table` after `set(0, 99)`: the entry is replaced in place. -/
def nogrow_table2 : hash_table :=
  { count := 2, slots := [some (2, 20), some (0, 99), none, none] }

/-- A concrete coordinator state for exercising
`coordinator::execute_runner`: live process, a single registered
runtime type id `0` whose callback produces `thread_exit(1)`. -/
def sample_coordinator : coordinator_state :=
  { alive := true,
    registry := fun tag => if tag = 0 then some (fun _ _ => some (.thread_exit 1)) else none,
    mapping := [] }

/-! # Theorems settling the claims -/

/-- C5: for non-null operation and thread arguments the enabledness
predicate of `thread.c` answers a `THREAD_JOIN` operation with `true`
exactly when the operation's target thread is no longer alive, and it
answers `false` whenever the operation or the thread argument is
null. -/
theorem claim_C5_thread_operation_enabled :
    (∀ (top : thread_operation) (th : cthread),
      top.type = .THREAD_JOIN →
      (thread_operation_enabled (some top) (some th) = true ↔
        top.thread.is_alive = false)) ∧
    (∀ o : Option cthread, thread_operation_enabled none o = false) ∧
    (∀ o : Option thread_operation, thread_operation_enabled o none = false) := by
  refine ⟨?_, ?_, ?_⟩
  · intro top th h
    simp [thread_operation_enabled, h]
  · intro o
    rfl
  · intro o
    cases o <;> rfl

/-- Witness for C5 at a concrete join operation on a dead thread. -/
theorem claim_C5_witness :
    thread_operation_enabled
      (some ⟨.THREAD_JOIN, ⟨false, none, none, 7⟩⟩)
      (some ⟨true, none, none, 3⟩) = true :=
  (claim_C5_thread_operation_enabled.1
      ⟨.THREAD_JOIN, ⟨false, none, none, 7⟩⟩ ⟨true, none, none, 3⟩ rfl).mpr rfl

/-- C3: the initial program model built by `do_model_checking` has
exactly one runner — the main thread, with runner id 0 — in state
running, with pending transition `thread_start(main)` and zero
non-runner visible objects. -/
theorem claim_C3_initial_model :
    do_model_checking_initial_program
      = { state := { objects := [.thread_running], runners := [0] },
          pending := [(0, .thread_start 0)] } ∧
    do_model_checking_initial_program.state.runners.length = 1 ∧
    (detached_state.empty.add_runner .thread_running).2 = 0 ∧
    do_model_checking_initial_program.state.non_runner_object_count = 0 := by
  refine ⟨rfl, rfl, rfl, rfl⟩

/-- C2: the `observe_remote_process_handle` routine of
`coordinator.cpp` is an unfinished stub.  Evaluated at an address that
is not in the (empty) mapping, it returns `model::invalid_objid`
(`none`) and records nothing, so the subsequent `get_model_of` lookup
still yields `invalid` instead of a freshly allocated object id. -/
theorem claim_C2_observe_object_stub :
    observe_remote_process_handle [] 1 .mutex_uninitialized = (none, []) ∧
    get_object_for_remote_process_handle
      (observe_remote_process_handle [] 1 .mutex_uninitialized).2 1 = none ∧
    observe_remote_process_handle
      (observe_remote_process_handle [] 1 .mutex_uninitialized).2 1
      .mutex_uninitialized = (none, []) := by
  refine ⟨rfl, rfl, rfl⟩

/-- C4: in `MCCondEnqueue::dependentWith` the mutex-operation branch
delegates to `MCTransitionFactory::transitionsCoenabledCommon`, so the
dependency the code computes for a cond-enqueue against a mutex
operation is the co-enabledness of `mutex-unlock` with that operation,
not its dependency.  At `other = mutex-unlock(m)` (with the condition
variable's associated mutex equal to the transition's mutex `m`) the
code answers `true` while the dependency of `mutex-unlock(m)` with
itself is `false` (an unregistered pair, hence independent); the
co-enabledness half of the claim does hold at this input. -/
theorem claim_C4_dependency_uses_coenabled_common :
    MCTransition.depends (.condEnqueue 1 5 7 (some 7)) (.mutexUnlock 2 7) = true ∧
    MCTransition.depends (.mutexUnlock 3 7) (.mutexUnlock 2 7) = false ∧
    MCTransition.coenabled (.condEnqueue 1 5 7 (some 7)) (.mutexUnlock 2 7)
      = MCTransition.coenabled (.mutexUnlock 3 7) (.mutexUnlock 2 7) := by
  refine ⟨rfl, rfl, rfl⟩

/-- C6: the dependency and co-enabledness relations are symmetric over
the embedded transitions, in particular across the cond-enqueue versus
mutex-operation and cond-enqueue versus cond-enqueue dispatch cases. -/
theorem claim_C6_depends_coenabled_symmetric (a b : MCTransition) :
    MCTransition.depends a b = MCTransition.depends b a ∧
    MCTransition.coenabled a b = MCTransition.coenabled b a := by
  cases a <;> cases b <;>
    simp [MCTransition.depends, MCTransition.coenabled,
      MCTransition.condEnqueue_dependentWith, MCTransition.condEnqueue_coenabledWith,
      MCTransition.transitionsDependentCommon, MCTransition.transitionsCoenabledCommon,
      MCTransition.as_mutex_op, eq_comm, Nat.beq_eq, bne]

/-- C1: `coordinator::execute_runner` throws an execution error exactly
when the process handle is dead, the posted runtime type id has no
registered callback, or the callback returns null; in every other case
it hands the callback's transition to `model_executing_runner`. -/
theorem claim_C1_execute_runner (co : coordinator_state) (rid : Nat)
    (mb : runner_mailbox) :
    ((∃ msg, coordinator.execute_runner co rid mb = .execError msg) ↔
      (co.alive = false ∨ co.registry mb.tag = none ∨
        ∃ cb, co.registry mb.tag = some cb ∧ cb mb co.mapping = none)) ∧
    (∀ cb t, co.alive = true → co.registry mb.tag = some cb →
      cb mb co.mapping = some t →
      coordinator.execute_runner co rid mb = .handed rid t) := by
  constructor
  · unfold coordinator.execute_runner
    cases h : co.alive with
    | false =>
      simp
    | true =>
      simp only [Bool.not_true, if_neg]
      cases hr : co.registry mb.tag with
      | none =>
        simp
      | some cb =>
        cases hcb : cb mb co.mapping with
        | none =>
          simp [hcb]
        | some t =>
          simp [hcb]
  · intro cb t ha hr hcb
    unfold coordinator.execute_runner
    rw [ha, hr]
    simp [hcb]

/-- Witness for C1: a live coordinator with runtime type id 0
registered hands the produced transition to the model. -/
theorem claim_C1_witness :
    coordinator.execute_runner sample_coordinator 7 ⟨0, []⟩
      = .handed 7 (.thread_exit 1) :=
  (claim_C1_execute_runner sample_coordinator 7 ⟨0, []⟩).2 _ _ rfl rfl rfl

/-- C9: when the posted mutex address is not in the address map,
`mutex_unlock_callback` raises undefined behavior with the message
"Attempting to lock an uninitialized mutex" — the very wording the lock
callback uses — and in no case does the unlock callback register the
address as a new object (its view of the map is returned unchanged). -/
theorem claim_C9_mutex_unlock_callback (p a : Nat) (m : address_map)
    (h : model_to_system_map.contains m a = false) :
    mutex_unlock_callback p a m
      = .error "Attempting to lock an uninitialized mutex" ∧
    mutex_lock_callback p a m
      = .error "Attempting to lock an uninitialized mutex" ∧
    (∀ (p2 a2 : Nat) (m2 : address_map) (t : model_transition) (m3 : address_map),
      mutex_unlock_callback p2 a2 m2 = .ok (t, m3) → m3 = m2) := by
  refine ⟨?_, ?_, ?_⟩
  · simp [mutex_unlock_callback, h]
  · simp [mutex_lock_callback, h]
  · intro p2 a2 m2 t m3 hok
    unfold mutex_unlock_callback at hok
    by_cases hc : model_to_system_map.contains m2 a2 = true
    · simp [hc] at hok
      exact hok.2.symm
    · simp [Bool.of_not_eq_true hc] at hok

/-- Witness for C9 at a concrete unmapped address. -/
theorem claim_C9_witness :
    mutex_unlock_callback 0 1 []
      = .error "Attempting to lock an uninitialized mutex" ∧
    mutex_lock_callback 0 1 []
      = .error "Attempting to lock an uninitialized mutex" :=
  ⟨(claim_C9_mutex_unlock_callback 0 1 [] rfl).1,
   (claim_C9_mutex_unlock_callback 0 1 [] rfl).2.1⟩

/-- C7: `hash_table_remove` unconditionally invalidates the slot at the
key's hashed home index and decrements `count`, and on the reachable
table `set(0,10); set(2,20)` — where key `2` was displaced by linear
probing — removing key `2` decrements `count` while destroying key
`0`'s entry (both keys subsequently look up as absent). -/
theorem claim_C7_hash_table_remove_collision_bug :
    (∀ (t : hash_table) (key : Nat), t.slots ≠ [] → 0 < t.count →
      t.count < U64 →
      (hash_table_remove t key).slots
          = t.slots.set (hash_key key % t.slots.length) none ∧
      (hash_table_remove t key).count = t.count - 1) ∧
    (hash_table_set 3 4 hash_table_create 0 10 = some collision_tableA ∧
     hash_table_set 3 4 collision_tableA 2 20 = some collision_tableB ∧
     hash_table_get collision_tableB 0 = some (some 10) ∧
     hash_table_get collision_tableB 2 = some (some 20) ∧
     hash_table_remove collision_tableB 2 = collision_tableR ∧
     collision_tableR.count = collision_tableB.count - 1 ∧
     hash_table_get collision_tableR 0 = some none ∧
     hash_table_get collision_tableR 2 = some none) := by
  constructor
  · intro t key hne hpos hlt
    have hlen : ¬ t.slots.length = 0 := fun h => hne (List.length_eq_zero.mp h)
    unfold hash_table_remove
    rw [if_neg hlen]
    refine ⟨rfl, ?_⟩
    show (t.count + (U64 - 1)) % U64 = t.count - 1
    have h64 : U64 = 18446744073709551616 := by norm_num [U64]
    rw [h64] at hlt ⊢
    omega
  · refine ⟨by decide, by decide, by decide, by decide, by decide, by decide,
      by decide, by decide⟩

/-- Witness for C7's universally quantified part at the concrete
collision table. -/
theorem claim_C7_witness :
    (hash_table_remove collision_tableB 2).slots
        = collision_tableB.slots.set (hash_key 2 % collision_tableB.slots.length) none ∧
    (hash_table_remove collision_tableB 2).count = collision_tableB.count - 1 :=
  claim_C7_hash_table_remove_collision_bug.1 collision_tableB 2
    (by decide) (by decide) (by decide)

/-- C8: invoking the checker with `--help` or `-h` (anywhere the option
loop reaches them), with an unrecognized option, or with a missing or
nonexistent target prints a diagnostic and exits with code 1; invoking
it with no arguments at all is rewritten to `--help` and so also prints
the usage text and exits 1. -/
theorem claim_C8_cli_errors :
    (∀ fe : String → Bool, main_cpp fe [] = .exit 1 mcmini_usage_diag ∧
      main_cpp fe [] = main_cpp fe ["--help"]) ∧
    (∀ (fe : String → Bool) (rest : List String) (cfg : mcmini_config),
      main_cpp_parse_args fe ("--help" :: rest) cfg = .exit 1 mcmini_usage_diag ∧
      main_cpp_parse_args fe ("-h" :: rest) cfg = .exit 1 mcmini_usage_diag) ∧
    (∀ (fe : String → Bool) (a : String) (rest : List String) (cfg : mcmini_config),
      mcmini_unrecognized_option a →
      main_cpp_parse_args fe (a :: rest) cfg
        = .exit 1 ("mcmini: unrecognized option: " ++ a ++ "\n")) ∧
    (∀ (fe : String → Bool) (cfg : mcmini_config),
      main_cpp_parse_args fe [] cfg = .exit 1 mcmini_missing_target_diag) ∧
    (∀ (fe : String → Bool) (t : String) (rest : List String) (cfg : mcmini_config),
      c_char_at t 0 ≠ '-' → fe t = false →
      main_cpp_parse_args fe (t :: rest) cfg = .exit 1 mcmini_missing_target_diag) := by
  refine ⟨?_, ?_, ?_, ?_, ?_⟩
  · intro fe
    exact ⟨rfl, rfl⟩
  · intro fe rest cfg
    constructor <;> (rw [main_cpp_parse_args.eq_def]; dsimp only; rfl)
  · intro fe a rest cfg h
    obtain ⟨h0, h1, h2, h3, h4, h5, h6, h7, h8, h9, h10, h11, h12, h13⟩ := h
    rw [main_cpp_parse_args.eq_def]
    dsimp only
    rw [if_neg (by simp [h0]), if_neg (by simp [h1, h2]), if_neg (by simp [h3, h4]),
      if_neg h5, if_neg (by simp [h6, h7, h8]), if_neg (by simp [h9, h10]),
      if_neg h11, if_neg (by simp [h12, h13])]
  · intro fe cfg
    rw [main_cpp_parse_args.eq_def]
    dsimp only
    rfl
  · intro fe t rest cfg hdash hfe
    rw [main_cpp_parse_args.eq_def]
    dsimp only
    rw [if_pos hdash]
    simp [main_cpp_handle_target, hfe]

/-- Witness for C8 at a concrete unrecognized option and a concrete
nonexistent target. -/
theorem claim_C8_witness :
    main_cpp_parse_args (fun _ => false) ["-x"] {}
      = .exit 1 ("mcmini: unrecognized option: -x\n") ∧
    main_cpp_parse_args (fun _ => false) ["a.out"] {}
      = .exit 1 mcmini_missing_target_diag :=
  ⟨claim_C8_cli_errors.2.2.1 (fun _ => false) "-x" [] {} (by decide),
   claim_C8_cli_errors.2.2.2.2 (fun _ => false) "a.out" [] {} (by decide) rfl⟩

/-! ### Probe-loop lemmas for the set/get claims -/

theorem slot_at_some_lt (l : List hash_table_entry) (i : Nat)
    (x : Nat × Nat) (h : slot_at l i = some x) : i < l.length := by
  by_contra hc
  push_neg at hc
  rw [slot_at, List.getD_eq_getElem?_getD, List.getElem?_eq_none (by omega)] at h
  simp at h

theorem slot_at_set_self (l : List hash_table_entry) (i : Nat)
    (e : hash_table_entry) (h : i < l.length) : slot_at (l.set i e) i = e := by
  rw [slot_at, List.getD_eq_getElem?_getD, List.getElem?_set_self',
    List.getElem?_eq_getElem h]
  rfl

theorem slot_at_set_ne (l : List hash_table_entry) (i j : Nat)
    (e : hash_table_entry) (h : i ≠ j) : slot_at (l.set i e) j = slot_at l j := by
  rw [slot_at, slot_at, List.getD_eq_getElem?_getD, List.getElem?_set_ne h,
    List.getD_eq_getElem?_getD]

theorem slot_at_mem (l : List hash_table_entry) (i : Nat)
    (x : Nat × Nat) (h : slot_at l i = some x) : some x ∈ l := by
  have hi : i < l.length := slot_at_some_lt l i x h
  rw [slot_at, List.getD_eq_getElem?_getD, List.getElem?_eq_getElem hi] at h
  simp at h
  exact h ▸ List.getElem_mem hi

theorem probe_loop_found_key (slots : List hash_table_entry) (key : Nat) :
    ∀ fuel idx i, probe_loop slots key idx fuel = .found i →
    ∃ v, slot_at slots i = some (key, v) := by
  intro fuel
  induction fuel with
  | zero =>
    intro idx i h
    simp [probe_loop] at h
  | succ m ih =>
    intro idx i h
    cases hs : slot_at slots idx with
    | none => simp [probe_loop, hs] at h
    | some kv =>
      by_cases hk : kv.1 = key
      · simp [probe_loop, hs, hk] at h
        refine ⟨kv.2, ?_⟩
        rw [← h, hs, ← hk]
      · simp [probe_loop, hs, hk] at h
        exact ih _ _ h

theorem probe_loop_found_immediate (slots : List hash_table_entry)
    (key value idx : Nat) (fuel : Nat) (hf : 0 < fuel)
    (hs : slot_at slots idx = some (key, value)) :
    probe_loop slots key idx fuel = .found idx := by
  cases fuel with
  | zero => omega
  | succ m => simp [probe_loop, hs]

theorem probe_loop_set_found (slots : List hash_table_entry) (key value : Nat) :
    ∀ fuel idx i, idx < slots.length →
    (probe_loop slots key idx fuel = .found i ∨
      probe_loop slots key idx fuel = .empty i) →
    probe_loop (slots.set i (some (key, value))) key idx fuel = .found i := by
  intro fuel
  induction fuel with
  | zero =>
    intro idx i _ h
    rcases h with h | h <;> simp [probe_loop] at h
  | succ m ih =>
    intro idx i hidx h
    by_cases hii : i = idx
    · subst hii
      have hset : slot_at (slots.set i (some (key, value))) i = some (key, value) :=
        slot_at_set_self slots i _ hidx
      simp [probe_loop, hset]
    · have hgd : slot_at (slots.set i (some (key, value))) idx = slot_at slots idx :=
        slot_at_set_ne slots i idx _ hii
      cases hs : slot_at slots idx with
      | none =>
        rcases h with h | h <;> simp [probe_loop, hs] at h
        exact absurd h.symm hii
      | some kv =>
        by_cases hk : kv.1 = key
        · rcases h with h | h <;> simp [probe_loop, hs, hk] at h
          exact absurd h.symm hii
        · have hrec : probe_loop slots key ((idx + 1) % slots.length) m = .found i ∨
              probe_loop slots key ((idx + 1) % slots.length) m = .empty i := by
            rcases h with h | h
            · exact Or.inl (by simpa [probe_loop, hs, hk] using h)
            · exact Or.inr (by simpa [probe_loop, hs, hk] using h)
          have hlt : (idx + 1) % slots.length < slots.length :=
            Nat.mod_lt _ (by omega)
          have hstep := ih ((idx + 1) % slots.length) i hlt hrec
          rw [probe_loop]
          rw [hgd, hs]
          simp only [hk, if_neg, List.length_set]
          simpa [hk] using hstep

theorem hash_table_rehash_length (old : List hash_table_entry) :
    ∀ acc, (hash_table_rehash old acc).length = acc.length := by
  induction old with
  | nil => intro acc; rfl
  | cons e old ih =>
    intro acc
    cases e with
    | none => simpa [hash_table_rehash] using ih acc
    | some kv =>
      have := ih (acc.set (hash_key kv.1 % acc.length) (some kv))
      simpa [hash_table_rehash] using this

theorem hash_table_has_key_set_false (l : List hash_table_entry) (j : Nat)
    (kv : Nat × Nat) (key : Nat) (hl : hash_table_has_key l key = false)
    (hk : ¬ kv.1 = key) :
    hash_table_has_key (l.set j (some kv)) key = false := by
  rw [hash_table_has_key] at hl ⊢
  rw [List.any_eq_false] at hl ⊢
  intro e he
  rcases List.mem_or_eq_of_mem_set he with hmem | rfl
  · exact hl e hmem
  · simpa using hk

theorem hash_table_has_key_replicate (m : Nat) (key : Nat) :
    hash_table_has_key (List.replicate m none) key = false := by
  rw [hash_table_has_key, List.any_eq_false]
  intro e he
  rw [List.eq_of_mem_replicate he]
  simp

theorem hash_table_rehash_no_key (key : Nat) :
    ∀ (old acc : List hash_table_entry),
    hash_table_has_key old key = false → hash_table_has_key acc key = false →
    hash_table_has_key (hash_table_rehash old acc) key = false := by
  intro old
  induction old with
  | nil => intro acc _ hacc; exact hacc
  | cons e old ih =>
    intro acc hold hacc
    rw [hash_table_has_key, List.any_eq_false] at hold
    have holdtail : hash_table_has_key old key = false := by
      rw [hash_table_has_key, List.any_eq_false]
      intro x hx
      exact hold x (List.mem_cons_of_mem _ hx)
    cases e with
    | none => simpa [hash_table_rehash] using ih acc holdtail hacc
    | some kv =>
      have hk : ¬ kv.1 = key := by
        have := hold (some kv) (List.mem_cons_self _ _)
        simpa using this
      have hacc2 := hash_table_has_key_set_false acc
        (hash_key kv.1 % acc.length) kv key hacc hk
      simpa [hash_table_rehash] using ih _ holdtail hacc2

theorem hash_table_grow_count (n d : Nat) (t : hash_table) :
    (hash_table_unforced_grow n d t).count = t.count := by
  rw [hash_table_unforced_grow]
  split <;> split <;> rfl

theorem hash_table_grow_length_pos (n d : Nat) (t : hash_table) :
    0 < (hash_table_unforced_grow n d t).slots.length := by
  unfold hash_table_unforced_grow
  dsimp only
  by_cases h0 : t.slots.length = 0
  · rw [if_pos h0]
    split
    · rw [hash_table_rehash_length, List.length_replicate]
      simp
    · simp
  · rw [if_neg h0]
    split
    · rw [hash_table_rehash_length, List.length_replicate]
      omega
    · omega

theorem hash_table_grow_no_key (n d : Nat) (t : hash_table) (key : Nat)
    (h : hash_table_has_key t.slots key = false) :
    hash_table_has_key (hash_table_unforced_grow n d t).slots key = false := by
  rw [hash_table_unforced_grow]
  have h0 : ∀ t0 : hash_table, hash_table_has_key t0.slots key = false →
      hash_table_has_key
        (hash_table_rehash t0.slots (List.replicate (2 * t0.slots.length) none)) key
        = false := by
    intro t0 h0
    exact hash_table_rehash_no_key key t0.slots _ h0
      (hash_table_has_key_replicate _ key)
  split
  · split
    · exact h0 _ (by rfl)
    · rfl
  · split
    · exact h0 _ h
    · exact h

theorem hash_table_has_key_of_slot (l : List hash_table_entry) (i key v : Nat)
    (h : slot_at l i = some (key, v)) : hash_table_has_key l key = true := by
  rw [hash_table_has_key, List.any_eq_true]
  exact ⟨some (key, v), slot_at_mem l i _ h, by simp⟩

/-- C10 (amended): whenever `hash_table_set(ref, k, v)` terminates and
the stored `count` is below `2 ^ 64 - 1` — `count` can only reach that
magnitude through `hash_table_remove`'s `size_t` underflow, after which
the `count++` of the set wraps to zero and `get` misreads the home
slot — then `hash_table_get(ref, k)` afterwards returns `v`; if no
valid entry with key `k` existed, `count` increases by exactly one; and
if `get` returned `k`'s value beforehand, `count` was nonzero, and the
set triggers no growth, the entry's value is replaced in place and
`count` is unchanged.  (When the set does trigger a growth, the rehash
can lose `k`'s entry to a home-slot collision and `count` then
increases even though `k` was present — see the counterexample.) -/
theorem claim_C10_set_get_roundtrip (n d : Nat) (t t2 : hash_table)
    (key value : Nat) (hcap : t.count + 1 < U64)
    (hset : hash_table_set n d t key value = some t2) :
    hash_table_get t2 key = some (some value) ∧
    (hash_table_has_key t.slots key = false → t2.count = t.count + 1) ∧
    (∀ w, hash_table_get t key = some (some w) → t.count ≠ 0 →
      hash_table_unforced_grow n d t = t →
      t2.count = t.count ∧
      ∃ i, slot_at t.slots i = some (key, w) ∧
        t2.slots = t.slots.set i (some (key, value))) := by
  rw [hash_table_set] at hset
  have hpos : 0 < (hash_table_unforced_grow n d t).slots.length :=
    hash_table_grow_length_pos n d t
  have hcnt1 : (hash_table_unforced_grow n d t).count = t.count :=
    hash_table_grow_count n d t
  have hmod : ((hash_table_unforced_grow n d t).count + 1) % U64
      = (hash_table_unforced_grow n d t).count + 1 := by
    rw [hcnt1]
    exact Nat.mod_eq_of_lt hcap
  have hhome : hash_table_map_key (hash_table_unforced_grow n d t) key
      < (hash_table_unforced_grow n d t).slots.length := by
    rw [hash_table_map_key, hash_table_num_slots]
    exact Nat.mod_lt _ hpos
  cases hps : hash_table_probe_set (hash_table_unforced_grow n d t) key with
  | none => rw [hps] at hset; cases hset
  | some dr =>
    obtain ⟨dest, replace⟩ := dr
    rw [hps] at hset
    cases hset
    rw [hash_table_probe_set] at hps
    -- facts shared by all probe outcomes, phrased for the written table
    have hget2 : ∀ i : Nat,
        probe_loop ((hash_table_unforced_grow n d t).slots.set i
            (some (key, value))) key
          (hash_table_map_key (hash_table_unforced_grow n d t) key)
          (hash_table_unforced_grow n d t).slots.length = .found i →
        ∀ c2 : Nat, c2 ≠ 0 →
        hash_table_get ⟨c2, (hash_table_unforced_grow n d t).slots.set i
            (some (key, value))⟩ key = some (some value) := by
      intro i hfound c2 hc2
      obtain ⟨v, hv⟩ := probe_loop_found_key _ key _ _ _ hfound
      have hilt : i < (hash_table_unforced_grow n d t).slots.length := by
        have := slot_at_some_lt _ _ _ hv
        simpa [List.length_set] using this
      have hvv : slot_at ((hash_table_unforced_grow n d t).slots.set i
          (some (key, value))) i = some (key, value) :=
        slot_at_set_self _ _ _ hilt
      have hmk : hash_table_map_key ⟨c2, (hash_table_unforced_grow n d t).slots.set i
          (some (key, value))⟩ key
          = hash_table_map_key (hash_table_unforced_grow n d t) key := by
        rw [hash_table_map_key, hash_table_map_key, hash_table_num_slots,
          hash_table_num_slots]
        simp [List.length_set]
      have hpg : hash_table_probe_get ⟨c2, (hash_table_unforced_grow n d t).slots.set i
          (some (key, value))⟩ key = some (some i) := by
        rw [hash_table_probe_get]
        dsimp only
        rw [if_neg hc2]
        have hfuel : ((hash_table_unforced_grow n d t).slots.set i
            (some (key, value))).length
            = (hash_table_unforced_grow n d t).slots.length := by
          simp [List.length_set]
        rw [hmk, hfuel, hfound]
      have hcond : ¬ ((hash_table_unforced_grow n d t).slots.set i
          (some (key, value))).length = 0 := by
        rw [List.length_set]
        omega
      rw [hash_table_get]
      dsimp only
      rw [if_neg hcond]
      rw [hpg]
      dsimp only
      rw [hvv]
      rfl
    by_cases hc0 : (hash_table_unforced_grow n d t).count = 0
    · -- the count == 0 shortcut of hash_table_probe_set
      rw [if_pos hc0] at hps
      simp only [Option.some.injEq, Prod.mk.injEq] at hps
      obtain ⟨hd, hr⟩ := hps
      subst hd
      subst hr
      refine ⟨?_, ?_, ?_⟩
      · -- get after set finds the freshly written home slot
        have hvv : slot_at ((hash_table_unforced_grow n d t).slots.set
            (hash_table_map_key (hash_table_unforced_grow n d t) key)
            (some (key, value)))
            (hash_table_map_key (hash_table_unforced_grow n d t) key)
            = some (key, value) := slot_at_set_self _ _ _ hhome
        have hfound := probe_loop_found_immediate _ key value _
          ((hash_table_unforced_grow n d t).slots.length) (by omega) hvv
        exact hget2 _ (by simpa [List.length_set] using hfound) _ (by simp [hmod])
      · intro _
        simp [hcnt1, Nat.mod_eq_of_lt hcap]
      · intro w hget hc hgrow
        rw [hgrow] at hc0
        exact absurd hc0 hc
    · -- the probing branch of hash_table_probe_set
      rw [if_neg hc0] at hps
      cases hpl : probe_loop (hash_table_unforced_grow n d t).slots key
          (hash_table_map_key (hash_table_unforced_grow n d t) key)
          (hash_table_unforced_grow n d t).slots.length with
      | hang => rw [hpl] at hps; cases hps
      | found j =>
        rw [hpl] at hps
        simp only [Option.some.injEq, Prod.mk.injEq] at hps
        obtain ⟨hd, hr⟩ := hps
        subst hd
        subst hr
        have hnew := probe_loop_set_found (hash_table_unforced_grow n d t).slots
          key value _ _ j hhome (Or.inl hpl)
        refine ⟨?_, ?_, ?_⟩
        · exact hget2 j hnew _ (by simpa using fun h => hc0 h)
        · intro habs
          obtain ⟨v, hv⟩ := probe_loop_found_key _ key _ _ _ hpl
          have := hash_table_has_key_of_slot _ _ _ _ hv
          rw [hash_table_grow_no_key n d t key habs] at this
          cases this
        · intro w hget hc hgrow
          rw [hgrow] at hpl hcnt1 ⊢
          rw [hash_table_get] at hget
          by_cases hl0 : t.slots.length = 0
          · rw [if_pos hl0] at hget
            simp at hget
          · rw [if_neg hl0] at hget
            rw [hash_table_probe_get] at hget
            rw [if_neg hc, hpl] at hget
            simp only [Option.some.injEq] at hget
            obtain ⟨v, hv⟩ := probe_loop_found_key _ key _ _ _ hpl
            have hvw : slot_at t.slots j = some (key, w) := by
              rw [hv] at hget ⊢
              simp at hget
              rw [hget]
            exact ⟨by simp, j, hvw, rfl⟩
      | empty j =>
        rw [hpl] at hps
        simp only [Option.some.injEq, Prod.mk.injEq] at hps
        obtain ⟨hd, hr⟩ := hps
        subst hd
        subst hr
        have hnew := probe_loop_set_found (hash_table_unforced_grow n d t).slots
          key value _ _ j hhome (Or.inr hpl)
        refine ⟨?_, ?_, ?_⟩
        · exact hget2 j hnew _ (by simp [hmod])
        · intro _
          simp [hcnt1, Nat.mod_eq_of_lt hcap]
        · intro w hget hc hgrow
          rw [hgrow] at hpl
          rw [hash_table_get] at hget
          by_cases hl0 : t.slots.length = 0
          · rw [if_pos hl0] at hget
            simp at hget
          · rw [if_neg hl0] at hget
            rw [hash_table_probe_get] at hget
            rw [if_neg hc, hpl] at hget
            simp at hget

/-- Counterexample to C10 as stated: on the reachable table
`set(0,10); set(2,20)` (load factor 3/4), key `0` is present with value
`10`, yet `set(0,30)` leaves `count = 3` instead of the claimed
unchanged `count = 2` — the growth's collision-unsafe rehash lost key
`0`'s entry, so the probe re-inserted it as a new entry. -/
theorem claim_C10_counterexample :
    hash_table_set 3 4 hash_table_create 0 10 = some collision_tableA ∧
    hash_table_set 3 4 collision_tableA 2 20 = some collision_tableB ∧
    hash_table_has_key collision_tableB.slots 0 = true ∧
    hash_table_get collision_tableB 0 = some (some 10) ∧
    collision_tableB.count = 2 ∧
    hash_table_set 3 4 collision_tableB 0 30 = some collision_tableC ∧
    collision_tableC.count = 3 ∧
    hash_table_get collision_tableC 0 = some (some 30) := by
  refine ⟨by decide, by decide, by decide, by decide, by decide, by decide,
    by decide, by decide⟩

/-- Witness for C10's amended theorem on a sparse table where the set
triggers no growth: the value is replaced in place and `count` is
unchanged. -/
theorem claim_C10_witness :
    hash_table_get nogrow_table2 0 = some (some 99) ∧
    nogrow_table2.count = nogrow_table.count :=
  ⟨(claim_C10_set_get_roundtrip 3 4 nogrow_table nogrow_table2 0 99
      (by decide) (by decide)).1,
   ((claim_C10_set_get_roundtrip 3 4 nogrow_table nogrow_table2 0 99
      (by decide) (by decide)).2.2 10 (by decide) (by decide) (by decide)).1⟩
